import Mathlib

/-!
Shallow embedding of the volume-planning and transfer-generation logic of
`protocols/opentrons_protocol.py` (Automated Media Preparation protocol).

Volumes and concentrations are modelled as rationals (`ℚ`); the Python code
uses floating point, so exact rational identities here entail the "within
tolerance" phrasings of the specification.  Pandas data frames are modelled
as lists of rows; the per-well target row is a function from component name
to target concentration.
-/

namespace Opentrons

/-- Stock level tag chosen for a component transfer (`high` / `low`). -/
inductive Level
  | high
  | low
deriving DecidableEq, Repr

/-- The global CONFIG dictionary of the protocol. -/
structure Config where
  well_volume : ℚ
  min_transfer_volume : ℚ
  culture_factor : ℚ
  dead_volume : ℚ
deriving DecidableEq, Repr

/-- The `CONFIG` constants from the source file. -/
def CONFIG : Config := ⟨1500, 1, 100, 100⟩

/-- One row of the stock-concentration table (`df_stock`): a component with
its high- and low-concentration stock values. -/
structure StockRow where
  component : String
  highConc : ℚ
  lowConc : ℚ
deriving DecidableEq, Repr

/-- Function `find_volumes_single` from the source: volume and stock level for one
generic component.  The nested Python `if stock > 0: v = ...; if bounds:
return` is flattened into a conjunction guarding the same returns. -/
def find_volumes_single (stock_high stock_low target_conc well_volume min_volume culture_factor : ℚ) :
    ℚ × Option Level :=
  if target_conc = 0 then (0, none)
  else if 0 < stock_high ∧
      min_volume ≤ target_conc * well_volume / stock_high ∧
      target_conc * well_volume / stock_high ≤ well_volume / culture_factor then
    (target_conc * well_volume / stock_high, some Level.high)
  else if 0 < stock_low ∧
      min_volume ≤ target_conc * well_volume / stock_low ∧
      target_conc * well_volume / stock_low ≤ well_volume / culture_factor then
    (target_conc * well_volume / stock_low, some Level.low)
  else if 0 < stock_high then (target_conc * well_volume / stock_high, some Level.high)
  else if 0 < stock_low then (target_conc * well_volume / stock_low, some Level.low)
  else (0, none)

/-- One cell of `calculate_transfer_volumes`: the `Kan` component uses the
fixed high-stock formula unconditionally, every other component goes through
`find_volumes_single`. -/
def cell_volume_level (r : StockRow) (target well_volume min_volume culture_factor : ℚ) :
    ℚ × Option Level :=
  if r.component = "Kan" then (target * well_volume / r.highConc, some Level.high)
  else find_volumes_single r.highConc r.lowConc target well_volume min_volume culture_factor

/-- One row of the output of `calculate_transfer_volumes`: the per-component
volumes and levels together with the synthetic `Water` and `Culture` columns. -/
structure WellRow where
  comps : List (String × ℚ × Option Level)
  water : ℚ
  culture : ℚ
deriving DecidableEq, Repr

/-- The body of `calculate_transfer_volumes` for a single destination well:
compute every component cell, then `Water = well_volume - total_other -
culture_vol` and `Culture = well_volume / culture_factor`. -/
def calculate_row (stock : List StockRow) (target : String → ℚ)
    (well_volume min_volume culture_factor : ℚ) : WellRow :=
  let cells := stock.map (fun r =>
    (r.component, cell_volume_level r (target r.component) well_volume min_volume culture_factor))
  let total_other := (cells.map (fun c => c.2.1)).sum
  let culture_vol := well_volume / culture_factor
  ⟨cells, well_volume - total_other - culture_vol, culture_vol⟩

/-- Function `calculate_transfer_volumes`: one `WellRow` per destination well, in the
target matrix's row order. -/
def calculate_transfer_volumes (stock : List StockRow) (wells : List String)
    (target : String → String → ℚ) (well_volume min_volume culture_factor : ℚ) :
    List (String × WellRow) :=
  wells.map (fun w => (w, calculate_row stock (target w) well_volume min_volume culture_factor))

/-- Sum of every column of a `WellRow`: all component volumes plus the
synthetic `Water` and `Culture` columns. -/
def row_sum (row : WellRow) : ℚ :=
  (row.comps.map (fun c => c.2.1)).sum + row.water + row.culture

/-- C1: for every destination well produced by `calculate_transfer_volumes`,
the volumes of all columns (components, `Water`, `Culture`) sum exactly to
`well_volume` — in particular within any tolerance — because `Water` is
defined as `well_volume` minus the other columns minus the culture volume. -/
theorem c1_row_sum (stock : List StockRow) (wells : List String)
    (target : String → String → ℚ) (well_volume min_volume culture_factor : ℚ)
    (w : String) (row : WellRow)
    (h : (w, row) ∈ calculate_transfer_volumes stock wells target well_volume min_volume culture_factor) :
    row_sum row = well_volume := by
  rcases List.mem_map.1 h with ⟨w0, _, hw⟩
  cases hw
  simp only [row_sum, calculate_row]
  ring

/-- Witness for C1 at a concrete stock table, target matrix and config. -/
theorem c1_row_sum_witness :
    row_sum (calculate_row [⟨"Kan", 300, 300⟩, ⟨"Glucose", 100, 10⟩] (fun _ => 1) 1500 1 100) = 1500 :=
  c1_row_sum [⟨"Kan", 300, 300⟩, ⟨"Glucose", 100, 10⟩] ["A1"] (fun _ _ => 1) 1500 1 100
    "A1" _ (by simp [calculate_transfer_volumes])

/-- C2 counterexample: a `Kan` cell with target concentration 0 still gets
level tag `high` (the fixed-dose branch never returns `none`), contradicting
the claim that every zero-target cell has level `none`. -/
theorem c2_kan_level_counterexample :
    cell_volume_level ⟨"Kan", 300, 300⟩ 0 1500 1 100 = (0, some Level.high) := by
  simp [cell_volume_level]

/-- C2 amended: with target concentration 0, a generic (non-`Kan`) component
cell is `(0, none)`, while the `Kan` cell has volume 0 but level `high`. -/
theorem c2_zero_target_amended (r : StockRow) (well_volume min_volume culture_factor : ℚ) :
    (r.component ≠ "Kan" →
      cell_volume_level r 0 well_volume min_volume culture_factor = (0, none)) ∧
    (r.component = "Kan" →
      cell_volume_level r 0 well_volume min_volume culture_factor = (0, some Level.high)) := by
  constructor
  · intro hne
    simp [cell_volume_level, hne, find_volumes_single]
  · intro he
    simp [cell_volume_level, he]

/-- Witness for C2-amended at a concrete generic component and at `Kan`. -/
theorem c2_zero_target_amended_witness :
    cell_volume_level ⟨"Glucose", 100, 10⟩ 0 1500 1 100 = (0, none) ∧
    cell_volume_level ⟨"Kan", 300, 300⟩ 0 1500 1 100 = (0, some Level.high) :=
  ⟨(c2_zero_target_amended ⟨"Glucose", 100, 10⟩ 1500 1 100).1 (by decide),
   (c2_zero_target_amended ⟨"Kan", 300, 300⟩ 1500 1 100).2 rfl⟩

/-- The resolution order stated by the claim for C3, written exactly in the
claim's terms: accept the high-stock volume when it lies in
`[min_volume, well_volume / culture_factor]`, else the low-stock volume under
the same bounds, else fall back to high when the high stock is positive, else
to low, else `(0, none)`. -/
def claimed_find_volumes (stock_high stock_low target_conc well_volume min_volume culture_factor : ℚ) :
    ℚ × Option Level :=
  if min_volume ≤ target_conc * well_volume / stock_high ∧
      target_conc * well_volume / stock_high ≤ well_volume / culture_factor then
    (target_conc * well_volume / stock_high, some Level.high)
  else if min_volume ≤ target_conc * well_volume / stock_low ∧
      target_conc * well_volume / stock_low ≤ well_volume / culture_factor then
    (target_conc * well_volume / stock_low, some Level.low)
  else if 0 < stock_high then (target_conc * well_volume / stock_high, some Level.high)
  else if 0 < stock_low then (target_conc * well_volume / stock_low, some Level.low)
  else (0, none)

/-- A nonpositive stock concentration can never pass the acceptance bounds
when the target, well volume and minimum volume are positive. -/
lemma bounds_fail_of_stock_nonpos (s t wv mv cf : ℚ) (ht : 0 < t) (hwv : 0 < wv)
    (hmv : 0 < mv) (hs : ¬ 0 < s) :
    ¬ (mv ≤ t * wv / s ∧ t * wv / s ≤ wv / cf) := by
  rintro ⟨hle, -⟩
  have hdiv : t * wv / s ≤ 0 :=
    div_nonpos_iff.2 (Or.inl ⟨(mul_pos ht hwv).le, not_lt.1 hs⟩)
  exact absurd (hmv.trans_le (hle.trans hdiv)) (lt_irrefl 0)

/-- C3: for positive target concentration (and positive well volume and
minimum volume, as configured), `find_volumes_single` implements exactly the
resolution order stated by the claim. -/
theorem c3_spec_equiv (stock_high stock_low target_conc well_volume min_volume culture_factor : ℚ)
    (ht : 0 < target_conc) (hwv : 0 < well_volume) (hmv : 0 < min_volume) :
    find_volumes_single stock_high stock_low target_conc well_volume min_volume culture_factor =
      claimed_find_volumes stock_high stock_low target_conc well_volume min_volume culture_factor := by
  have ht0 : target_conc ≠ 0 := ne_of_gt ht
  by_cases hsh : 0 < stock_high
  · by_cases hbh : min_volume ≤ target_conc * well_volume / stock_high ∧
        target_conc * well_volume / stock_high ≤ well_volume / culture_factor
    · simp [find_volumes_single, claimed_find_volumes, ht0, hsh, hbh]
    · by_cases hsl : 0 < stock_low
      · by_cases hbl : min_volume ≤ target_conc * well_volume / stock_low ∧
            target_conc * well_volume / stock_low ≤ well_volume / culture_factor
        · simp [find_volumes_single, claimed_find_volumes, ht0, hsh, hbh, hsl, hbl]
        · simp [find_volumes_single, claimed_find_volumes, ht0, hsh, hbh, hsl, hbl]
      · have hbl := bounds_fail_of_stock_nonpos _ _ _ _ culture_factor ht hwv hmv hsl
        simp [find_volumes_single, claimed_find_volumes, ht0, hsh, hbh, hsl, hbl]
  · have hbh := bounds_fail_of_stock_nonpos _ _ _ _ culture_factor ht hwv hmv hsh
    by_cases hsl : 0 < stock_low
    · by_cases hbl : min_volume ≤ target_conc * well_volume / stock_low ∧
          target_conc * well_volume / stock_low ≤ well_volume / culture_factor
      · simp [find_volumes_single, claimed_find_volumes, ht0, hsh, hbh, hsl, hbl]
      · simp [find_volumes_single, claimed_find_volumes, ht0, hsh, hbh, hsl, hbl]
    · have hbl := bounds_fail_of_stock_nonpos _ _ _ _ culture_factor ht hwv hmv hsl
      simp [find_volumes_single, claimed_find_volumes, ht0, hsh, hbh, hsl, hbl]

/-- Witness for C3 at the spec's fallback example: `stock_high = 10`,
`stock_low = 1`, `target = 1`, `well_volume = 1500` — both candidate volumes
exceed the ceiling 15, and the fallback prefers high. -/
theorem c3_spec_equiv_witness :
    find_volumes_single 10 1 1 1500 1 100 = claimed_find_volumes 10 1 1 1500 1 100 ∧
    find_volumes_single 10 1 1 1500 1 100 = (150, some Level.high) :=
  ⟨c3_spec_equiv 10 1 1 1500 1 100 (by norm_num) (by norm_num) (by norm_num),
   by norm_num [find_volumes_single]⟩

/-- The two loaded pipettes (`p20_single_gen2`, `p300_single_gen2`). -/
inductive Pipette
  | p20
  | p300
deriving DecidableEq, Repr

/-- Maximum deliverable volume of each loaded pipette, from the Opentrons
instrument definitions (20 µL and 300 µL). -/
def maxVolume : Pipette → ℚ
  | Pipette.p20 => 20
  | Pipette.p300 => 300

/-- Pipette choice of `smart_transfer`: the `pip_choice` string argument,
`auto` picking `p20` for volumes strictly below 20 and `p300` otherwise. -/
def pick_pipette (pip_choice : String) (volume : ℚ) : Pipette :=
  if pip_choice = "auto" then (if volume < 20 then Pipette.p20 else Pipette.p300)
  else if pip_choice = "p20" then Pipette.p20
  else Pipette.p300

/-- One generated pipetting call: `pipette.transfer(volume, source, dest,
new_tip, mix_after)`.  `freshTip` records `new_tip` being `always`. -/
structure Transfer where
  volume : ℚ
  source : String
  dest : String
  pipette : Pipette
  freshTip : Bool
  mixAfter : Option (ℕ × ℚ)
deriving DecidableEq, Repr

/-- An observable effect of the run: a pipetting call or a protocol comment. -/
inductive Event
  | transfer (t : Transfer)
  | comment (msg : String)
deriving DecidableEq, Repr

/-- Number of sub-transfers chosen by `smart_transfer` when splitting:
`int(np.ceil(volume / channel_max))`. -/
def sub_transfer_count (volume channel_max : ℚ) : ℕ :=
  (Int.ceil (volume / channel_max)).toNat

/-- Function `smart_transfer` from the source: volumes below 1.0 are skipped with no
effect; otherwise the pipette is chosen from `pip_choice`; a volume above the
pipette's maximum is split into `ceil(volume / max)` equal sub-transfers each
with a fresh tip and no mix; otherwise a single transfer carrying `mix_after`. -/
def smart_transfer (volume : ℚ) (source dest : String) (pip_choice : String)
    (mix_after : Option (ℕ × ℚ)) : List Event :=
  if volume < 1 then []
  else
    let pipette := pick_pipette pip_choice volume
    if maxVolume pipette < volume then
      let n := sub_transfer_count volume (maxVolume pipette)
      List.replicate n (Event.transfer ⟨volume / (n : ℚ), source, dest, pipette, true, none⟩)
    else
      [Event.transfer ⟨volume, source, dest, pipette, true, mix_after⟩]

/-- C6 counterexample: a request of exactly 20 µL selects the p300 channel
even though the p20 channel's capacity (20 µL) suffices, contradicting the
claimed `capacity ≥ volume` selection rule. -/
theorem c6_exact_capacity_counterexample :
    pick_pipette "auto" 20 = Pipette.p300 ∧ (20 : ℚ) ≤ maxVolume Pipette.p20 := by
  constructor
  · simp [pick_pipette]
  · norm_num [maxVolume]

/-- C6 amended: automatic selection picks the 20 µL channel exactly when its
capacity is strictly greater than the requested volume, and the 300 µL channel
otherwise (so a request of exactly 20 µL goes to p300). -/
theorem c6_strict_selection (volume : ℚ) (_hmin : 1 ≤ volume) :
    (pick_pipette "auto" volume = Pipette.p20 ↔ volume < maxVolume Pipette.p20) ∧
    (pick_pipette "auto" volume = Pipette.p300 ↔ maxVolume Pipette.p20 ≤ volume) := by
  by_cases h20 : volume < 20
  · simp [pick_pipette, maxVolume, h20]
  · simp [pick_pipette, maxVolume, h20, not_lt.1 h20]

/-- Witness for C6-amended at volume 5. -/
theorem c6_strict_selection_witness :
    pick_pipette "auto" 5 = Pipette.p20 ↔ (5 : ℚ) < maxVolume Pipette.p20 :=
  (c6_strict_selection 5 (by norm_num)).1

/-- A volume strictly above a positive channel maximum always yields at
least one sub-transfer. -/
lemma sub_transfer_count_pos (volume channel_max : ℚ) (hpos : 0 < channel_max)
    (hlt : channel_max < volume) : 1 ≤ sub_transfer_count volume channel_max := by
  have hq : 1 ≤ volume / channel_max := (one_le_div hpos).2 hlt.le
  have hc : 0 < Int.ceil (volume / channel_max) :=
    Int.ceil_pos.2 (lt_of_lt_of_le one_pos hq)
  simp only [sub_transfer_count]
  omega

/-- Every pipette has positive capacity. -/
lemma maxVolume_pos (p : Pipette) : 0 < maxVolume p := by
  cases p <;> norm_num [maxVolume]

/-- C7: above the chosen channel's maximum, `smart_transfer` emits exactly
`ceil(volume / channel_max)` sub-transfers (at least one), each of equal size
`volume / n` and each with a fresh tip and no other difference; at or below
the maximum it emits a single unsplit transfer with a fresh tip. -/
theorem c7_split (volume : ℚ) (source dest pip_choice : String)
    (mix_after : Option (ℕ × ℚ)) (h1 : 1 ≤ volume) :
    (maxVolume (pick_pipette pip_choice volume) < volume →
      smart_transfer volume source dest pip_choice mix_after =
        List.replicate (sub_transfer_count volume (maxVolume (pick_pipette pip_choice volume)))
          (Event.transfer ⟨volume / ((sub_transfer_count volume (maxVolume (pick_pipette pip_choice volume)) : ℕ) : ℚ),
            source, dest, pick_pipette pip_choice volume, true, none⟩) ∧
      1 ≤ sub_transfer_count volume (maxVolume (pick_pipette pip_choice volume))) ∧
    (volume ≤ maxVolume (pick_pipette pip_choice volume) →
      smart_transfer volume source dest pip_choice mix_after =
        [Event.transfer ⟨volume, source, dest, pick_pipette pip_choice volume, true, mix_after⟩]) := by
  have hnl : ¬ volume < 1 := not_lt.2 h1
  constructor
  · intro hsplit
    constructor
    · simp [smart_transfer, hnl, hsplit]
    · exact sub_transfer_count_pos volume (maxVolume (pick_pipette pip_choice volume))
        (maxVolume_pos (pick_pipette pip_choice volume)) hsplit
  · intro hle
    simp [smart_transfer, hnl, not_lt.2 hle]

/-- Witness for C7 at the spec's two examples: 45 µL on the 20 µL channel
splits into 3 sub-transfers of 15 µL each with fresh tips, and 250 µL on the
auto-selected 300 µL channel is a single unsplit transfer. -/
theorem c7_split_witness :
    smart_transfer 45 "src" "A1" "p20" none =
      List.replicate 3 (Event.transfer ⟨15, "src", "A1", Pipette.p20, true, none⟩) ∧
    smart_transfer 250 "src" "A1" "auto" none =
      [Event.transfer ⟨250, "src", "A1", Pipette.p300, true, none⟩] := by
  constructor
  · have h3 : sub_transfer_count 45 (maxVolume (pick_pipette "p20" 45)) = 3 := by
      have h20 : maxVolume (pick_pipette "p20" 45) = 20 := by decide
      have hceil : (Int.ceil ((45 : ℚ) / 20) : ℤ) = 3 := by
        rw [Int.ceil_eq_iff]
        constructor <;> norm_num
      simp only [sub_transfer_count, h20, hceil]
      rfl
    have hp : pick_pipette "p20" 45 = Pipette.p20 := by decide
    rw [((c7_split 45 "src" "A1" "p20" none (by norm_num)).1 (by decide)).1, h3, hp]
    norm_num
  · rw [(c7_split 250 "src" "A1" "auto" none (by norm_num)).2 (by decide)]
    decide

/-- The water-transfer loop of `run`: wells are visited in matrix row order;
a well with positive `Water` volume goes through `smart_transfer` and bumps
the running transfer count, which emits a progress comment every 10 counted
transfers; nonpositive volumes are skipped.  Nothing in the loop logs a
transfer that `smart_transfer` drops at its minimum-volume gate. -/
def water_stage (wells : List String) (waterVol : String → ℚ) : List Event × ℕ :=
  wells.foldl (fun acc w =>
    if 0 < waterVol w then
      let evs := smart_transfer (waterVol w) "reservoir:A1" w "auto" none
      let cnt := acc.2 + 1
      let note := if cnt % 10 = 0 then [Event.comment "  Completed water transfers"] else []
      (acc.1 ++ evs ++ note, cnt)
    else acc) ([], 0)

/-- C4 counterexample: a destination well whose planned `Water` volume is a
positive 0.5 µL produces no dispense call and no warning or comment at all —
the cell is dropped silently at the `smart_transfer` gate.  (The only later
output, the completion comment of `run`, even counts this dropped cell as a
completed transfer.) -/
theorem c4_silent_drop_counterexample :
    0 < (1 / 2 : ℚ) ∧ (water_stage ["A1"] (fun _ => 1 / 2)).1 = [] := by
  constructor
  · norm_num
  · norm_num [water_stage, smart_transfer]

/-- C4 amended: a cell whose positive planned volume is below the 1.0 µL
minimum is dropped by `smart_transfer` with no dispense and no log event of
any kind, while a volume of at least 1.0 µL always produces at least one
dispense call. -/
theorem c4_threshold_gate (volume : ℚ) (source dest pip_choice : String)
    (mix_after : Option (ℕ × ℚ)) :
    (volume < 1 → smart_transfer volume source dest pip_choice mix_after = []) ∧
    (1 ≤ volume → smart_transfer volume source dest pip_choice mix_after ≠ []) := by
  constructor
  · intro hlt
    simp [smart_transfer, hlt]
  · intro hge h
    have hnl : ¬ volume < 1 := not_lt.2 hge
    by_cases hsplit : maxVolume (pick_pipette pip_choice volume) < volume
    · have h1n := sub_transfer_count_pos volume (maxVolume (pick_pipette pip_choice volume))
        (maxVolume_pos (pick_pipette pip_choice volume)) hsplit
      simp [smart_transfer, hnl, hsplit] at h
      omega
    · simp [smart_transfer, hnl, hsplit] at h

/-- Witness for C4-amended: 0.5 µL is silently dropped, 15 µL is not. -/
theorem c4_threshold_gate_witness :
    smart_transfer (1 / 2) "reservoir:A1" "A1" "auto" none = [] ∧
    smart_transfer 15 "reservoir:A1" "A1" "auto" none ≠ [] :=
  ⟨(c4_threshold_gate (1 / 2) "reservoir:A1" "A1" "auto" none).1 (by norm_num),
   (c4_threshold_gate 15 "reservoir:A1" "A1" "auto" none).2 (by norm_num)⟩

/-- The warning comment emitted by the row-sum validation in `run`. -/
def validation_warning_msg : String := "WARNING: Volume calculations do not sum to target!"

/-- The row-sum validation of `run`: if any total deviates from `well_volume`
by at least the 0.01 tolerance, a single warning comment is emitted;
otherwise nothing. -/
def run_validation (totals : List ℚ) (well_volume : ℚ) : List Event :=
  if totals.all (fun t => decide (|t - well_volume| < 1 / 100)) then []
  else [Event.comment validation_warning_msg]

/-- The shape of `run` around validation: the validation output is followed
unconditionally by the generated instruction sequence — there is no branch
that aborts generation. -/
def run_plan (totals : List ℚ) (well_volume : ℚ) (instructions : List Event) : List Event :=
  run_validation totals well_volume ++ instructions

/-- C5 counterexample: at a concrete out-of-tolerance input (row total 0
against `well_volume` 1500) the run emits the soft warning and still produces
its full instruction sequence — no abort before instruction generation
happens, so the claimed selectable hard-failure policy does not exist. -/
theorem c5_no_abort_counterexample :
    ¬ |(0 : ℚ) - 1500| < 1 / 100 ∧
    run_plan [0] 1500 [Event.transfer ⟨10, "reservoir:A1", "A1", Pipette.p20, true, none⟩] =
      [Event.comment validation_warning_msg,
       Event.transfer ⟨10, "reservoir:A1", "A1", Pipette.p20, true, none⟩] := by
  constructor
  · norm_num
  · norm_num [run_plan, run_validation]

/-- C5 amended: the only supported behaviour is the soft warning — whenever
some row total is out of tolerance the warning comment is emitted, and in
every case all generated instructions are kept (generation is never
aborted). -/
theorem c5_soft_warning_only (totals : List ℚ) (well_volume : ℚ)
    (instructions : List Event) (e : Event) :
    (¬ (∀ t ∈ totals, |t - well_volume| < 1 / 100) →
      Event.comment validation_warning_msg ∈ run_plan totals well_volume instructions) ∧
    (e ∈ instructions → e ∈ run_plan totals well_volume instructions) := by
  constructor
  · intro hdev
    have : ¬ totals.all (fun t => decide (|t - well_volume| < 1 / 100)) = true := by
      simpa [List.all_eq_true] using hdev
    unfold run_plan run_validation
    rw [if_neg this]
    simp
  · intro he
    simp [run_plan, List.mem_append, he]

/-- Witness for C5-amended at the counterexample input. -/
theorem c5_soft_warning_only_witness :
    Event.comment validation_warning_msg ∈
      run_plan [0] 1500 [Event.transfer ⟨10, "reservoir:A1", "A1", Pipette.p20, true, none⟩] ∧
    Event.transfer ⟨10, "reservoir:A1", "A1", Pipette.p20, true, none⟩ ∈
      run_plan [0] 1500 [Event.transfer ⟨10, "reservoir:A1", "A1", Pipette.p20, true, none⟩] :=
  ⟨(c5_soft_warning_only [0] 1500 [Event.transfer ⟨10, "reservoir:A1", "A1", Pipette.p20, true, none⟩]
      (Event.comment validation_warning_msg)).1 (by intro h; exact absurd (h 0 (by simp)) (by norm_num)),
   (c5_soft_warning_only [0] 1500 [Event.transfer ⟨10, "reservoir:A1", "A1", Pipette.p20, true, none⟩]
      (Event.transfer ⟨10, "reservoir:A1", "A1", Pipette.p20, true, none⟩)).2 (by simp)⟩

/-- The resource-requirement report block of `run`: total water and culture
volumes (plain column sums) and water transfer counts per pipette. -/
structure ResourceReport where
  total_water : ℚ
  total_culture : ℚ
  water_p20_count : ℕ
  water_p300_count : ℕ
deriving DecidableEq, Repr

/-- The resource-requirement computation of `run`: `total_water` and
`total_culture` are the plain sums of the `Water` and `Culture` columns, and
the water transfers are counted with `0 < v < 20` on the p20 and `20 ≤ v` on
the p300.  No dead-volume overhead is applied anywhere, and no per-component
totals are produced. -/
def resource_report (waterCol cultureCol : List ℚ) : ResourceReport :=
  ⟨waterCol.sum, cultureCol.sum,
   (waterCol.filter (fun v => decide (0 < v) && decide (v < 20))).length,
   (waterCol.filter (fun v => decide (20 ≤ v))).length⟩

/-- C8 counterexample: with a single destination well using 100 µL of water,
the reported water total is the bare 100 µL, not the 200 µL the claim's
dead-volume overhead (`CONFIG.dead_volume = 100`) would demand; component
sources are not reported at all. -/
theorem c8_no_dead_volume_counterexample :
    (resource_report [100] [15]).total_water = 100 ∧
    CONFIG.dead_volume = 100 ∧
    (100 : ℚ) ≠ 100 + CONFIG.dead_volume := by
  refine ⟨?_, rfl, ?_⟩
  · norm_num [resource_report]
  · norm_num [CONFIG]

/-- C8 amended: the summary reports only the water and culture sources; each
total is the plain sum of its column over all destination wells with no
dead-volume overhead, plus water-transfer counts split at 20 µL. -/
theorem c8_report_plain_sums (waterCol cultureCol : List ℚ) :
    (resource_report waterCol cultureCol).total_water = waterCol.sum ∧
    (resource_report waterCol cultureCol).total_culture = cultureCol.sum ∧
    (resource_report waterCol cultureCol).water_p20_count =
      (waterCol.filter (fun v => decide (0 < v) && decide (v < 20))).length ∧
    (resource_report waterCol cultureCol).water_p300_count =
      (waterCol.filter (fun v => decide (20 ≤ v))).length :=
  ⟨rfl, rfl, rfl, rfl⟩

/-- The culture volume used by `run`: the `Culture` column of the first
destination well, which `calculate_transfer_volumes` sets to
`well_volume / culture_factor` — with `CONFIG`, 15 µL. -/
def run_culture_volume : ℚ := CONFIG.well_volume / CONFIG.culture_factor

/-- The `Culture` column is `well_volume / culture_factor` in every row, so
the first row's value used by `run` equals every other row's value. -/
lemma calculate_row_culture (stock : List StockRow) (target : String → ℚ)
    (well_volume min_volume culture_factor : ℚ) :
    (calculate_row stock target well_volume min_volume culture_factor).culture =
      well_volume / culture_factor := rfl

/-- The culture-transfer loop of `run`: every destination well receives the
same `culture_volume` via `smart_transfer` with `mix_after=(3, 10)`; a
progress comment appears after every 10th transfer. -/
def culture_stage (wells : List String) (culture_volume : ℚ) : List Event :=
  wells.enum.flatMap (fun p =>
    smart_transfer culture_volume "fresh:Culture" p.2 "auto" (some (3, 10)) ++
    (if (p.1 + 1) % 10 = 0 then [Event.comment "  Completed culture transfers"] else []))

/-- Evaluation of `smart_transfer` at the run's 15 µL culture volume: a single p20 dispense
carrying the mix action. -/
lemma smart_transfer_culture (source dest : String) :
    smart_transfer run_culture_volume source dest "auto" (some (3, 10)) =
      [Event.transfer ⟨run_culture_volume, source, dest, Pipette.p20, true, some (3, 10)⟩] := by
  have hv : run_culture_volume = 15 := by norm_num [run_culture_volume, CONFIG]
  rw [hv]
  norm_num [smart_transfer, pick_pipette, maxVolume]

/-- C9: every culture transfer generated by the culture loop at the run's
culture volume dispenses the same 15 µL volume into its well and carries the
post-dispense mix action `(3, 10)` with a fresh tip; no culture transfer is
ever split (15 µL is within the auto-selected p20 capacity), so the mix is
never lost to the mix-free splitting branch. -/
theorem c9_culture_mix (wells : List String) (t : Transfer)
    (h : Event.transfer t ∈ culture_stage wells run_culture_volume) :
    t.volume = run_culture_volume ∧ t.mixAfter = some (3, 10) ∧ t.freshTip = true := by
  rcases List.mem_flatMap.1 h with ⟨p, _, hp⟩
  rw [smart_transfer_culture] at hp
  rcases List.mem_append.1 hp with hp | hp
  · have ht : t = ⟨run_culture_volume, "fresh:Culture", p.2, Pipette.p20, true, some (3, 10)⟩ := by
      have hm := List.mem_singleton.1 hp
      injection hm
    subst ht
    exact ⟨rfl, rfl, rfl⟩
  · by_cases hmod : (p.1 + 1) % 10 = 0 <;> simp [hmod] at hp

/-- Witness for C9 with one destination well. -/
theorem c9_culture_mix_witness :
    (⟨run_culture_volume, "fresh:Culture", "A1", Pipette.p20, true, some (3, 10)⟩ : Transfer).volume =
        run_culture_volume ∧
    (⟨run_culture_volume, "fresh:Culture", "A1", Pipette.p20, true, some (3, 10)⟩ : Transfer).mixAfter =
        some (3, 10) ∧
    (⟨run_culture_volume, "fresh:Culture", "A1", Pipette.p20, true, some (3, 10)⟩ : Transfer).freshTip =
        true :=
  c9_culture_mix ["A1"] ⟨run_culture_volume, "fresh:Culture", "A1", Pipette.p20, true, some (3, 10)⟩
    (by simp [culture_stage, List.enum, List.enumFrom, smart_transfer_culture])

/-- Division instrumented for the zero-divisor hazard: `none` stands for the
`ZeroDivisionError` Python would raise. -/
def safeDiv (a b : ℚ) : Option ℚ := if b = 0 then none else some (a / b)

/-- The fallback tail of `find_volumes_single` with every division routed
through `safeDiv`. -/
def fvs_fallback_checked (stock_high stock_low target_conc well_volume : ℚ) :
    Option (ℚ × Option Level) :=
  if 0 < stock_high then
    (safeDiv (target_conc * well_volume) stock_high).map (fun v => (v, some Level.high))
  else if 0 < stock_low then
    (safeDiv (target_conc * well_volume) stock_low).map (fun v => (v, some Level.low))
  else some (0, none)

/-- The low-stock attempt of `find_volumes_single` with checked division. -/
def fvs_low_checked (stock_high stock_low target_conc well_volume min_volume culture_factor : ℚ) :
    Option (ℚ × Option Level) :=
  if 0 < stock_low then
    match safeDiv (target_conc * well_volume) stock_low with
    | none => none
    | some vl =>
      if min_volume ≤ vl ∧ vl ≤ well_volume / culture_factor then some (vl, some Level.low)
      else fvs_fallback_checked stock_high stock_low target_conc well_volume
  else fvs_fallback_checked stock_high stock_low target_conc well_volume

/-- Variant of `find_volumes_single` with every division by a stock concentration routed
through `safeDiv`, mirroring the source's control flow: a division only runs
inside the positivity check that guards it. -/
def find_volumes_single_checked (stock_high stock_low target_conc well_volume min_volume culture_factor : ℚ) :
    Option (ℚ × Option Level) :=
  if target_conc = 0 then some (0, none)
  else if 0 < stock_high then
    match safeDiv (target_conc * well_volume) stock_high with
    | none => none
    | some vh =>
      if min_volume ≤ vh ∧ vh ≤ well_volume / culture_factor then some (vh, some Level.high)
      else fvs_low_checked stock_high stock_low target_conc well_volume min_volume culture_factor
  else fvs_low_checked stock_high stock_low target_conc well_volume min_volume culture_factor

/-- The Kanamycin cell of `calculate_transfer_volumes` with its unguarded
division by the high stock concentration routed through `safeDiv`. -/
def kan_cell_checked (target well_volume stock_high : ℚ) : Option (ℚ × Option Level) :=
  (safeDiv (target * well_volume) stock_high).map (fun v => (v, some Level.high))

/-- Lemma: `safeDiv` succeeds whenever its divisor is positive. -/
lemma safeDiv_of_pos (a b : ℚ) (hb : 0 < b) : safeDiv a b = some (a / b) := by
  simp [safeDiv, ne_of_gt hb]

/-- C10: the generic path is total — every division in `find_volumes_single`
sits behind a strict-positivity check on its divisor, so the checked variant
never signals a zero division and agrees with the unchecked code on every
input, and a component with no positive stock yields `(0, none)`; the `Kan`
branch, in contrast, divides with no guard and signals a zero division when
the high stock concentration is 0. -/
theorem c10_division_guard :
    (∀ stock_high stock_low target_conc well_volume min_volume culture_factor : ℚ,
      find_volumes_single_checked stock_high stock_low target_conc well_volume min_volume culture_factor =
        some (find_volumes_single stock_high stock_low target_conc well_volume min_volume culture_factor)) ∧
    (∀ stock_high stock_low target_conc well_volume min_volume culture_factor : ℚ,
      ¬ 0 < stock_high → ¬ 0 < stock_low →
      find_volumes_single stock_high stock_low target_conc well_volume min_volume culture_factor = (0, none)) ∧
    kan_cell_checked 1 1500 0 = none := by
  refine ⟨?_, ?_, ?_⟩
  · intro sh sl t wv mv cf
    by_cases ht : t = 0
    · simp [find_volumes_single_checked, find_volumes_single, ht]
    · by_cases hsh : 0 < sh
      · rw [find_volumes_single_checked, if_neg ht, if_pos hsh, safeDiv_of_pos _ _ hsh]
        dsimp only
        by_cases hbh : mv ≤ t * wv / sh ∧ t * wv / sh ≤ wv / cf
        · simp [find_volumes_single, ht, hsh, hbh]
        · rw [if_neg hbh, fvs_low_checked]
          by_cases hsl : 0 < sl
          · rw [if_pos hsl, safeDiv_of_pos _ _ hsl]
            dsimp only
            by_cases hbl : mv ≤ t * wv / sl ∧ t * wv / sl ≤ wv / cf
            · simp [find_volumes_single, ht, hsh, hbh, hsl, hbl]
            · rw [if_neg hbl, fvs_fallback_checked, if_pos hsh, safeDiv_of_pos _ _ hsh]
              simp [find_volumes_single, ht, hsh, hbh, hsl, hbl]
          · rw [if_neg hsl, fvs_fallback_checked, if_pos hsh, safeDiv_of_pos _ _ hsh]
            simp [find_volumes_single, ht, hsh, hbh, hsl]
      · rw [find_volumes_single_checked, if_neg ht, if_neg hsh, fvs_low_checked]
        by_cases hsl : 0 < sl
        · rw [if_pos hsl, safeDiv_of_pos _ _ hsl]
          dsimp only
          by_cases hbl : mv ≤ t * wv / sl ∧ t * wv / sl ≤ wv / cf
          · simp [find_volumes_single, ht, hsh, hbl, hsl]
          · rw [if_neg hbl, fvs_fallback_checked, if_neg hsh, if_pos hsl, safeDiv_of_pos _ _ hsl]
            simp [find_volumes_single, ht, hsh, hsl, hbl]
        · rw [if_neg hsl, fvs_fallback_checked, if_neg hsh, if_neg hsl]
          simp [find_volumes_single, ht, hsh, hsl]
  · intro sh sl t wv mv cf hsh hsl
    simp [find_volumes_single, hsh, hsl]
  · simp [kan_cell_checked, safeDiv]

/-- Witness for C10: with no positive stock the generic cell is `(0, none)`,
by the theorem's totality and fallback clauses. -/
theorem c10_division_guard_witness :
    find_volumes_single 0 0 5 1500 1 100 = (0, none) :=
  c10_division_guard.2.1 0 0 5 1500 1 100 (by norm_num) (by norm_num)

end Opentrons
